import Mathlib

/-!
Verification of the decision core of a Polymarket short-term trading bot:
factor extraction, signal combination, position sizing and risk gating.
The definitions below are a shallow embedding of the TypeScript sources
(`short-term-strategy.ts`, `risk-manager.ts`, `types.ts`); numbers are
modelled as exact rationals, and a dedicated JavaScript-number model with
NaN and signed infinities is used where division by zero matters.
-/

/-- Outcome of a binary market (`'YES' | 'NO'` in the source). -/
inductive Outcome where
  | YES
  | NO
deriving DecidableEq, Repr

/-- A market quote for one outcome (`MarketPrice` in `types.ts`). -/
structure MarketPrice where
  marketId : String
  outcome : Outcome
  price : ℚ
  liquidity : ℚ
  volume24h : ℚ
deriving DecidableEq, Repr

/-- An open position (`Position` in `types.ts`). -/
structure Position where
  marketId : String
  outcome : Outcome
  size : ℚ
  averagePrice : ℚ
  currentPrice : ℚ
  pnl : ℚ
  pnlPercent : ℚ
deriving DecidableEq, Repr

/-- Bot-level configuration (`TradingConfig` in `types.ts`). -/
structure TradingConfig where
  minWinProbability : ℚ
  maxPositionSizeUsd : ℚ
  minMarketLiquidityUsd : ℚ
  maxSlippagePercent : ℚ
  maxDailyLossUsd : ℚ
  maxPositions : ℕ
  stopLossPercent : ℚ
  pollIntervalMs : ℚ
deriving DecidableEq, Repr

/-- A generated trade signal (`TradeSignal` in `types.ts`; the free-text
`reason` field is not modelled). -/
structure TradeSignal where
  marketId : String
  outcome : Outcome
  probability : ℚ
  confidence : ℚ
  signalStrength : ℚ
  recommendedSize : ℚ
deriving DecidableEq, Repr

/-- `RiskManager.canOpenPosition` from `risk-manager.ts`; the mutable field
`this.dailyPnL` is passed explicitly. -/
def canOpenPosition (config : TradingConfig) (dailyPnL : ℚ)
    (signal : TradeSignal) (currentPositions : List Position) : Bool :=
  if dailyPnL ≤ -config.maxDailyLossUsd then false
  else if config.maxPositions ≤ currentPositions.length then false
  else if (currentPositions.find? fun p => p.marketId == signal.marketId).isSome then false
  else if signal.recommendedSize < 1 then false
  else true

/-- `RiskManager.shouldClosePosition` from `risk-manager.ts`. -/
def shouldClosePosition (config : TradingConfig) (dailyPnL : ℚ)
    (position : Position) : Bool :=
  if position.pnlPercent ≤ -config.stopLossPercent then true
  else if dailyPnL + position.pnl ≤ -config.maxDailyLossUsd then true
  else false

/-- A sample trading configuration used by concrete witnesses. -/
def sampleTradingConfig : TradingConfig :=
  { minWinProbability := 0.6
    maxPositionSizeUsd := 100
    minMarketLiquidityUsd := 1000
    maxSlippagePercent := 2
    maxDailyLossUsd := 50
    maxPositions := 5
    stopLossPercent := 15
    pollIntervalMs := 60000 }

/-- A sample trade signal used by concrete witnesses. -/
def sampleSignal : TradeSignal :=
  { marketId := "mkt-1"
    outcome := Outcome.YES
    probability := 0.55
    confidence := 0.9
    signalStrength := 0.9
    recommendedSize := 100 }

/-- A sample open position used by concrete witnesses. -/
def samplePosition : Position :=
  { marketId := "mkt-1"
    outcome := Outcome.YES
    size := 100
    averagePrice := 0.5
    currentPrice := 0.55
    pnl := 10
    pnlPercent := 10 }

/-- A 15-minute OHLC candle (`KLine` in `kline-client.ts`). -/
structure KLine where
  timestamp : ℚ
  openPrice : ℚ
  high : ℚ
  low : ℚ
  close : ℚ
  volume : Option ℚ
deriving DecidableEq, Repr

/-- Strategy configuration (`ShortTermStrategyConfig` in
`short-term-strategy.ts`). -/
structure ShortTermStrategyConfig where
  momentumPeriods : List ℕ
  momentumThreshold : ℚ
  volatilityPeriod : ℕ
  highVolatilityMultiplier : ℚ
  pricingDeviationThreshold : ℚ
  volumeAnomalyThreshold : ℚ
  useTimeFactor : Bool
  earlyMarketWeight : ℚ
  minConfidence : ℚ
  minSignalStrength : ℚ
deriving DecidableEq, Repr

/-- The default configuration built in the `ShortTermStrategy`
constructor. -/
def defaultStrategyConfig : ShortTermStrategyConfig :=
  { momentumPeriods := [3, 5]
    momentumThreshold := 0.001
    volatilityPeriod := 10
    highVolatilityMultiplier := 1.5
    pricingDeviationThreshold := 0.05
    volumeAnomalyThreshold := 2.0
    useTimeFactor := true
    earlyMarketWeight := 0.3
    minConfidence := 0.60
    minSignalStrength := 0.55 }

/-- `ShortTermStrategy.calculateMomentum`: weighted short-term momentum
over the configured lookback periods, scaled by 100 and clamped to
[-1, 1]. -/
def calculateMomentum (config : ShortTermStrategyConfig)
    (klines : List KLine) : ℚ :=
  if klines.length < 5 then 0 else
  let closes := klines.map (·.close)
  let currentPrice := closes.getD (closes.length - 1) 0
  let acc := config.momentumPeriods.foldl
    (fun (acc : ℚ × ℚ) (period : ℕ) =>
      if closes.length < period then acc
      else
        let pastPrice := closes.getD (closes.length - period) 0
        let change := (currentPrice - pastPrice) / pastPrice
        let weight : ℚ := if period = 3 then 0.6 else 0.4
        (acc.1 + change * weight, acc.2 + weight))
    (0, 0)
  let avgMomentum := if 0 < acc.2 then acc.1 / acc.2 else 0
  max (-1) (min 1 (avgMomentum * 100))

/-- The True Range of a candle given its predecessor
(`max(high-low, |high-prevClose|, |low-prevClose|)`). -/
def trueRange (prev curr : KLine) : ℚ :=
  max (curr.high - curr.low)
    (max |curr.high - prev.close| |curr.low - prev.close|)

/-- The list of True Ranges over the last `volatilityPeriod` candles
(the loop body of `calculateVolatility`). -/
def recentTrueRanges (config : ShortTermStrategyConfig)
    (klines : List KLine) : List ℚ :=
  let recentKlines := klines.drop (klines.length - config.volatilityPeriod)
  (recentKlines.zip recentKlines.tail).map fun pc => trueRange pc.1 pc.2

/-- The Average True Range over the last `volatilityPeriod` candles
(the `atr` binding of `calculateVolatility`). -/
def averageTrueRange (config : ShortTermStrategyConfig)
    (klines : List KLine) : ℚ :=
  (recentTrueRanges config klines).sum / (recentTrueRanges config klines).length

/-- The average close over the last `volatilityPeriod` candles (the
`avgPrice` binding of `calculateVolatility`). -/
def averageClose (config : ShortTermStrategyConfig)
    (klines : List KLine) : ℚ :=
  let recentKlines := klines.drop (klines.length - config.volatilityPeriod)
  (recentKlines.map (·.close)).sum / recentKlines.length

/-- `ShortTermStrategy.calculateVolatility`: the ATR-to-average-price
ratio, divided by itself times the high-volatility multiplier (the source
sets `avgVolatility = volatility`), capped at 1.  Exact-rational model;
see `calculateVolatilityJS` for the JavaScript-number semantics. -/
def calculateVolatility (config : ShortTermStrategyConfig)
    (klines : List KLine) : ℚ :=
  if klines.length < config.volatilityPeriod then 0 else
  let atr := averageTrueRange config klines
  let avgPrice := averageClose config klines
  let volatility := atr / avgPrice
  let avgVolatility := volatility
  min 1 (volatility / (avgVolatility * config.highVolatilityMultiplier))

/-- `ShortTermStrategy.calculatePricingDeviation`: the quote probability
minus a trend-implied probability, scaled by 2 and clamped to [-1, 1].
The source computes the clamped estimate `estimatedActualProbabilityClamped`
but then subtracts the unclamped `estimatedActualProbability`; the unused
binding is kept here as in the source. -/
def calculatePricingDeviation (currentPrice : ℚ) (klines : List KLine)
    (polymarketYesPrice : ℚ) : ℚ :=
  if klines.length < 5 then 0 else
  let recentKlines := klines.drop (klines.length - 5)
  let prices := recentKlines.map (·.close)
  let priceChange := (prices.getD (prices.length - 1) 0 - prices.getD 0 0) / prices.getD 0 0
  let estimatedActualProbability := 0.5 + priceChange * 10
  let estimatedActualProbabilityClamped :=
    max 0.3 (min 0.7 estimatedActualProbability)
  let deviation := polymarketYesPrice - estimatedActualProbability
  max (-1) (min 1 (deviation * 2))

/-- The pricing-deviation factor as the specification words it: the
estimated probability is clamped to [0.3, 0.7] before being subtracted
from the quote probability.  Stated for comparison with
`calculatePricingDeviation`. -/
def pricingDeviationSpec (klines : List KLine)
    (quoteProbability : ℚ) : ℚ :=
  if klines.length < 5 then 0 else
  let prices := (klines.drop (klines.length - 5)).map (·.close)
  let trend := (prices.getD (prices.length - 1) 0 - prices.getD 0 0) / prices.getD 0 0
  let estimatedProbability := max 0.3 (min 0.7 (0.5 + trend * 10))
  max (-1) (min 1 ((quoteProbability - estimatedProbability) * 2))

/-- `ShortTermStrategy.calculateVolumeAnomaly`: current 24h volume
against the average bar volume (converted to a 15-minute granularity),
relative to the anomaly threshold, capped at 1. -/
def calculateVolumeAnomaly (config : ShortTermStrategyConfig)
    (klines : List KLine) (currentVolume24h : ℚ) : ℚ :=
  if klines.length < 5 then 0 else
  let volumes := ((klines.drop (klines.length - 10)).map
    (fun k => k.volume.getD 0)).filter fun v => decide (0 < v)
  if volumes.length = 0 then 0 else
  let avgVolume := volumes.sum / volumes.length
  if avgVolume = 0 then 0 else
  let volumeRatio := currentVolume24h / (avgVolume * 24 * 4)
  min 1 (volumeRatio / config.volumeAnomalyThreshold)

/-- `ShortTermStrategy.calculateTimeFactor`: trend of the last 3 candles
weighted by `earlyMarketWeight`, active only in the first 5 minutes after
the market start.  The source reads the wall clock through `Date.now()`,
modelled by the explicit `now` argument. -/
def calculateTimeFactor (config : ShortTermStrategyConfig)
    (klines : List KLine) (marketStartTime : ℚ) (now : ℚ) : ℚ :=
  if klines.length < 3 then 0 else
  let timeSinceStart := (now - marketStartTime) / (1000 * 60)
  if timeSinceStart < 5 then
    let recentKlines := klines.drop (klines.length - 3)
    let prices := recentKlines.map (·.close)
    let trend := (prices.getD (prices.length - 1) 0 - prices.getD 0 0) / prices.getD 0 0
    (max (-1) (min 1 (trend * 100))) * config.earlyMarketWeight
  else 0

/-- The factor record nested in `StrategySignal` in the source. -/
structure Factors where
  momentum : ℚ
  volatility : ℚ
  pricingDeviation : ℚ
  volumeAnomaly : ℚ
  timeFactor : ℚ
deriving DecidableEq, Repr

/-- A combined strategy signal (`StrategySignal` in the source; the
free-text `reasons` list is not modelled). -/
structure StrategySignal where
  direction : Outcome
  confidence : ℚ
  signalStrength : ℚ
  factors : Factors
deriving DecidableEq, Repr

/-- `ShortTermStrategy.calculateFactorAgreement`: weighted fraction of
momentum, pricing-deviation and time factors whose sign agrees with the
chosen direction. -/
def calculateFactorAgreement (factors : Factors)
    (direction : Outcome) : ℚ :=
  let expectedSign : Int := if direction = Outcome.YES then 1 else -1
  let m : ℚ × ℕ :=
    if 0.001 < |factors.momentum| then
      (if (if 0 < factors.momentum then (1 : Int) else -1) = expectedSign
        then 0.3 else 0, 1)
    else (0, 0)
  let pr : ℚ × ℕ :=
    if 0.05 < |factors.pricingDeviation| then
      (if (if factors.pricingDeviation < 0 then (1 : Int) else -1) = expectedSign
        then 0.3 else 0, 1)
    else (0, 0)
  let t : ℚ × ℕ :=
    if 0.1 < |factors.timeFactor| then
      (if (if 0 < factors.timeFactor then (1 : Int) else -1) = expectedSign
        then 0.2 else 0, 1)
    else (0, 0)
  let agreement := m.1 + pr.1 + t.1
  let count := m.2 + pr.2 + t.2
  if 0 < count then agreement / count else 0

/-- The unconditional part of `ShortTermStrategy.combineFactors`: weighted
score, direction, strength and confidence, before the minimum-strength
gate. -/
def combineFactorsCore (config : ShortTermStrategyConfig)
    (momentum volatility pricingDeviation volumeAnomaly timeFactor : ℚ) :
    StrategySignal :=
  let factors : Factors :=
    ⟨momentum, volatility, pricingDeviation, volumeAnomaly, timeFactor⟩
  let momentumScore :=
    if config.momentumThreshold < |momentum| then momentum else 0
  let volatilityBoost : ℚ := if 0.5 < volatility then 1.2 else 1.0
  let pricingScore :=
    if config.pricingDeviationThreshold < |pricingDeviation| then
      -pricingDeviation
    else 0
  let volumeBoost : ℚ := if 0.5 < volumeAnomaly then 1.1 else 1.0
  let timeScore := timeFactor
  let combinedScore :=
    momentumScore * 0.40 * volatilityBoost +
    pricingScore * 0.25 +
    timeScore * 0.10 +
    (momentumScore * volumeBoost - momentumScore) * 0.10
  let direction : Outcome :=
    if 0 < combinedScore then Outcome.YES else Outcome.NO
  let signalStrength := min 1 |combinedScore|
  let confidence0 := signalStrength
  let factorAgreement := calculateFactorAgreement factors direction
  let confidence1 := confidence0 + factorAgreement * 0.2
  let confidence2 :=
    if 0.6 < volatility ∧ 0.002 < |momentum| then confidence1 + 0.1
    else confidence1
  let confidence3 :=
    if 0.1 < |pricingDeviation| then confidence2 + 0.1 else confidence2
  let confidence := min 1 confidence3
  ⟨direction, confidence, signalStrength, factors⟩

/-- `ShortTermStrategy.combineFactors`: the combined signal, or none when
its strength is below the configured minimum.  The `yesPrice` and
`noPrice` parameters are kept although the source never reads them. -/
def combineFactors (config : ShortTermStrategyConfig)
    (momentum volatility pricingDeviation volumeAnomaly timeFactor : ℚ)
    (yesPrice noPrice : MarketPrice) : Option StrategySignal :=
  let s := combineFactorsCore config momentum volatility pricingDeviation
    volumeAnomaly timeFactor
  if s.signalStrength < config.minSignalStrength then none else some s

/-- `ShortTermStrategy.calculatePositionSize`: base size scaled by
confidence, strength and a high-probability derate, capped at 5% of the
liquidity and clamped to [50, 500]. -/
def calculatePositionSize (probability liquidity confidence signalStrength : ℚ) : ℚ :=
  let baseSize : ℚ := 100
  let confidenceMultiplier := confidence
  let strengthMultiplier := signalStrength
  let probabilityMultiplier : ℚ := if 0.7 < probability then 0.8 else 1.0
  let size := baseSize * confidenceMultiplier * strengthMultiplier * probabilityMultiplier
  let maxSize := min size (liquidity * 0.05)
  max 50 (min maxSize 500)

/-- The pricing-deviation input of `analyzeMarket`: computed from the
Chainlink price when one is available, and 0 otherwise
(`chainlinkPrice ? this.calculatePricingDeviation(...) : 0` in the
source). -/
def pricingDeviationOf (chainlinkPrice : Option ℚ) (klines : List KLine)
    (yesPrice : ℚ) : ℚ :=
  match chainlinkPrice with
  | some cp => calculatePricingDeviation cp klines yesPrice
  | none => 0

/-- The time-factor input of `analyzeMarket`: 0 when `marketStartTime` is
absent or 0 (a falsy start time in the source), and the computed time
factor otherwise. -/
def timeFactorOf (config : ShortTermStrategyConfig) (klines : List KLine)
    (marketStartTime : Option ℚ) (now : ℚ) : ℚ :=
  match marketStartTime with
  | some t => if t = 0 then 0 else calculateTimeFactor config klines t now
  | none => 0

/-- `ShortTermStrategy.analyzeMarket`: the per-market analysis pipeline.
The results of the awaited collaborators are passed as arguments: the
Chainlink reference price (`none` when the client returned null or threw),
the fetched K-line history, and the wall-clock time read by the time
factor. -/
def analyzeMarket (config : ShortTermStrategyConfig) (marketId : String)
    (prices : List MarketPrice) (chainlinkPrice : Option ℚ)
    (klines : List KLine) (marketStartTime : Option ℚ) (now : ℚ) :
    Option TradeSignal :=
  match prices.find? (fun p => p.outcome == Outcome.YES),
      prices.find? (fun p => p.outcome == Outcome.NO) with
  | some yesPrice, some noPrice =>
    if klines.length < 10 then none else
    let momentum := calculateMomentum config klines
    let volatility := calculateVolatility config klines
    let pricingDeviation := pricingDeviationOf chainlinkPrice klines yesPrice.price
    let volumeAnomaly := calculateVolumeAnomaly config klines yesPrice.volume24h
    let timeFactor := timeFactorOf config klines marketStartTime now
    match combineFactors config momentum volatility pricingDeviation
        volumeAnomaly timeFactor yesPrice noPrice with
    | none => none
    | some signal =>
      if signal.confidence < config.minConfidence then none
      else if signal.signalStrength < config.minSignalStrength then none
      else some
        { marketId := marketId
          outcome := signal.direction
          probability :=
            if signal.direction = Outcome.YES then yesPrice.price else noPrice.price
          confidence := signal.confidence
          signalStrength := signal.signalStrength
          recommendedSize := calculatePositionSize
            (if signal.direction = Outcome.YES then yesPrice.price else noPrice.price)
            (if signal.direction = Outcome.YES then yesPrice.liquidity else noPrice.liquidity)
            signal.confidence signal.signalStrength }
  | _, _ => none

/-- A JavaScript number: an exact rational, a signed infinity, or NaN.
Used where the source can divide by zero, which the exact-rational model
cannot express. -/
inductive JVal where
  | num (q : ℚ)
  | posInf
  | negInf
  | nan
deriving DecidableEq, Repr

/-- JavaScript addition on `JVal`. -/
def jadd : JVal → JVal → JVal
  | JVal.nan, _ => JVal.nan
  | _, JVal.nan => JVal.nan
  | JVal.posInf, JVal.negInf => JVal.nan
  | JVal.negInf, JVal.posInf => JVal.nan
  | JVal.posInf, _ => JVal.posInf
  | _, JVal.posInf => JVal.posInf
  | JVal.negInf, _ => JVal.negInf
  | _, JVal.negInf => JVal.negInf
  | JVal.num a, JVal.num b => JVal.num (a + b)

/-- JavaScript subtraction on `JVal`. -/
def jsub : JVal → JVal → JVal
  | JVal.nan, _ => JVal.nan
  | _, JVal.nan => JVal.nan
  | JVal.posInf, JVal.posInf => JVal.nan
  | JVal.negInf, JVal.negInf => JVal.nan
  | JVal.posInf, _ => JVal.posInf
  | JVal.negInf, _ => JVal.negInf
  | _, JVal.posInf => JVal.negInf
  | _, JVal.negInf => JVal.posInf
  | JVal.num a, JVal.num b => JVal.num (a - b)

/-- JavaScript multiplication on `JVal` (`Infinity * 0 = NaN`). -/
def jmul : JVal → JVal → JVal
  | JVal.nan, _ => JVal.nan
  | _, JVal.nan => JVal.nan
  | JVal.num a, JVal.num b => JVal.num (a * b)
  | JVal.num a, JVal.posInf =>
    if a = 0 then JVal.nan else if 0 < a then JVal.posInf else JVal.negInf
  | JVal.num a, JVal.negInf =>
    if a = 0 then JVal.nan else if 0 < a then JVal.negInf else JVal.posInf
  | JVal.posInf, JVal.num b =>
    if b = 0 then JVal.nan else if 0 < b then JVal.posInf else JVal.negInf
  | JVal.negInf, JVal.num b =>
    if b = 0 then JVal.nan else if 0 < b then JVal.negInf else JVal.posInf
  | JVal.posInf, JVal.posInf => JVal.posInf
  | JVal.posInf, JVal.negInf => JVal.negInf
  | JVal.negInf, JVal.posInf => JVal.negInf
  | JVal.negInf, JVal.negInf => JVal.posInf

/-- JavaScript division on `JVal` (`0/0 = NaN`, `x/0 = ±Infinity` for
nonzero x, `Infinity/Infinity = NaN`). -/
def jdiv : JVal → JVal → JVal
  | JVal.nan, _ => JVal.nan
  | _, JVal.nan => JVal.nan
  | JVal.num a, JVal.num b =>
    if b = 0 then
      if a = 0 then JVal.nan
      else if 0 < a then JVal.posInf else JVal.negInf
    else JVal.num (a / b)
  | JVal.num _, JVal.posInf => JVal.num 0
  | JVal.num _, JVal.negInf => JVal.num 0
  | JVal.posInf, JVal.num b => if 0 ≤ b then JVal.posInf else JVal.negInf
  | JVal.negInf, JVal.num b => if 0 ≤ b then JVal.negInf else JVal.posInf
  | _, _ => JVal.nan

/-- `Math.min` on `JVal` (NaN-propagating). -/
def jmin : JVal → JVal → JVal
  | JVal.nan, _ => JVal.nan
  | _, JVal.nan => JVal.nan
  | JVal.negInf, _ => JVal.negInf
  | _, JVal.negInf => JVal.negInf
  | JVal.posInf, y => y
  | x, JVal.posInf => x
  | JVal.num a, JVal.num b => JVal.num (min a b)

/-- `Math.max` on `JVal` (NaN-propagating). -/
def jmax : JVal → JVal → JVal
  | JVal.nan, _ => JVal.nan
  | _, JVal.nan => JVal.nan
  | JVal.posInf, _ => JVal.posInf
  | _, JVal.posInf => JVal.posInf
  | JVal.negInf, y => y
  | x, JVal.negInf => x
  | JVal.num a, JVal.num b => JVal.num (max a b)

/-- `Math.abs` on `JVal`. -/
def jabs : JVal → JVal
  | JVal.nan => JVal.nan
  | JVal.posInf => JVal.posInf
  | JVal.negInf => JVal.posInf
  | JVal.num a => JVal.num |a|

/-- `reduce((a, b) => a + b, 0)` on `JVal`. -/
def jsum (xs : List JVal) : JVal := xs.foldl jadd (JVal.num 0)

/-- The True Range computation of `calculateVolatility` under
JavaScript-number semantics. -/
def trueRangeJS (prev curr : KLine) : JVal :=
  jmax (jsub (JVal.num curr.high) (JVal.num curr.low))
    (jmax (jabs (jsub (JVal.num curr.high) (JVal.num prev.close)))
      (jabs (jsub (JVal.num curr.low) (JVal.num prev.close))))

/-- `ShortTermStrategy.calculateVolatility` under JavaScript-number
semantics: identical structure to `calculateVolatility`, but divisions
follow JavaScript (`0/0 = NaN`, and `Math.min` propagates NaN). -/
def calculateVolatilityJS (config : ShortTermStrategyConfig)
    (klines : List KLine) : JVal :=
  if klines.length < config.volatilityPeriod then JVal.num 0 else
  let recentKlines := klines.drop (klines.length - config.volatilityPeriod)
  let trueRanges := (recentKlines.zip recentKlines.tail).map
    fun pc => trueRangeJS pc.1 pc.2
  let atr := jdiv (jsum trueRanges) (JVal.num trueRanges.length)
  let avgPrice := jdiv (jsum (recentKlines.map fun k => JVal.num k.close))
    (JVal.num recentKlines.length)
  let volatility := jdiv atr avgPrice
  let avgVolatility := volatility
  jmin (JVal.num 1)
    (jdiv volatility (jmul avgVolatility (JVal.num config.highVolatilityMultiplier)))

/-- A flat candle at price `p` with volume `v`. -/
def flatBar (p v : ℚ) : KLine :=
  { timestamp := 0, openPrice := p, high := p, low := p, close := p
    volume := some v }

/-- Ten completely flat candles: every price field equals 100. -/
def flatBars : List KLine := List.replicate 10 (flatBar 100 1000)

/-- A candle whose OHLC all equal `c`, with volume 100, used to build
concrete histories close by close. -/
def barAt (c : ℚ) : KLine :=
  { timestamp := 0, openPrice := c, high := c, low := c, close := c
    volume := some 100 }

/-- Five candles whose closes rise from 100 to 105: the last-5-bar trend
is 5%, so the unclamped trend-implied probability is 1.0 and its clamp
is 0.7. -/
def c1Klines : List KLine :=
  [barAt 100, barAt 101, barAt 102, barAt 103, barAt 105]

/-- Three candles whose closes rise from 100 to 101 (a 1% trend over the
last 3 bars). -/
def c8Klines : List KLine := [barAt 100, barAt 100, barAt 101]

/-- Ten candles, flat at 1 then rising steeply to 4: momentum clamps
to 1 and the true ranges are nonzero. -/
def c9Klines : List KLine :=
  [barAt 1, barAt 1, barAt 1, barAt 1, barAt 1, barAt 1, barAt 1,
    barAt 2, barAt 3, barAt 4]

/-- A strategy configuration with thresholds lowered to 0.3 (the
constructor accepts such overrides), under which the bar-data factors
alone can clear the gate. -/
def c9Config : ShortTermStrategyConfig :=
  { defaultStrategyConfig with minConfidence := 0.3, minSignalStrength := 0.3 }

/-- A YES quote used by concrete strategy inputs. -/
def yesQuote : MarketPrice :=
  { marketId := "mkt-1", outcome := Outcome.YES, price := 0.5
    liquidity := 100000, volume24h := 1000000 }

/-- A NO quote used by concrete strategy inputs. -/
def noQuote : MarketPrice :=
  { marketId := "mkt-1", outcome := Outcome.NO, price := 0.5
    liquidity := 100000, volume24h := 1000000 }

/-- Ten candles with closes 10, 20, ..., 100: a bar history with a price
dispersion entirely different from `c9Klines`, and nonzero true ranges. -/
def c10Klines : List KLine :=
  [barAt 10, barAt 20, barAt 30, barAt 40, barAt 50, barAt 60, barAt 70,
    barAt 80, barAt 90, barAt 100]

/-- JavaScript negation on `JVal`. -/
def jneg : JVal → JVal
  | JVal.nan => JVal.nan
  | JVal.posInf => JVal.negInf
  | JVal.negInf => JVal.posInf
  | JVal.num a => JVal.num (-a)

/-- The JavaScript `<` comparison on `JVal`: any comparison involving NaN
is false. -/
def jlt : JVal → JVal → Bool
  | JVal.nan, _ => false
  | _, JVal.nan => false
  | JVal.negInf, JVal.negInf => false
  | JVal.negInf, _ => true
  | _, JVal.negInf => false
  | JVal.posInf, _ => false
  | _, JVal.posInf => true
  | JVal.num a, JVal.num b => decide (a < b)

/-- The JavaScript `<=` comparison on `JVal`: any comparison involving
NaN is false. -/
def jle : JVal → JVal → Bool
  | JVal.nan, _ => false
  | _, JVal.nan => false
  | JVal.negInf, _ => true
  | _, JVal.negInf => false
  | _, JVal.posInf => true
  | JVal.posInf, _ => false
  | JVal.num a, JVal.num b => decide (a ≤ b)

/-- `ShortTermStrategy.calculateMomentum` under JavaScript-number
semantics (a zero past close makes the relative change ±Infinity or
NaN). -/
def calculateMomentumJS (config : ShortTermStrategyConfig)
    (klines : List KLine) : JVal :=
  if klines.length < 5 then JVal.num 0 else
  let closes := klines.map (·.close)
  let currentPrice := JVal.num (closes.getD (closes.length - 1) 0)
  let acc := config.momentumPeriods.foldl
    (fun (acc : JVal × JVal) (period : ℕ) =>
      if closes.length < period then acc
      else
        let pastPrice := JVal.num (closes.getD (closes.length - period) 0)
        let change := jdiv (jsub currentPrice pastPrice) pastPrice
        let weight : JVal := if period = 3 then JVal.num 0.6 else JVal.num 0.4
        (jadd acc.1 (jmul change weight), jadd acc.2 weight))
    (JVal.num 0, JVal.num 0)
  let avgMomentum := if jlt (JVal.num 0) acc.2 then jdiv acc.1 acc.2 else JVal.num 0
  jmax (JVal.num (-1)) (jmin (JVal.num 1) (jmul avgMomentum (JVal.num 100)))

/-- `ShortTermStrategy.calculatePricingDeviation` under JavaScript-number
semantics. -/
def calculatePricingDeviationJS (currentPrice : ℚ) (klines : List KLine)
    (polymarketYesPrice : ℚ) : JVal :=
  if klines.length < 5 then JVal.num 0 else
  let prices := (klines.drop (klines.length - 5)).map (·.close)
  let priceChange := jdiv
    (jsub (JVal.num (prices.getD (prices.length - 1) 0)) (JVal.num (prices.getD 0 0)))
    (JVal.num (prices.getD 0 0))
  let estimatedActualProbability := jadd (JVal.num 0.5) (jmul priceChange (JVal.num 10))
  let estimatedActualProbabilityClamped :=
    jmax (JVal.num 0.3) (jmin (JVal.num 0.7) estimatedActualProbability)
  let deviation := jsub (JVal.num polymarketYesPrice) estimatedActualProbability
  jmax (JVal.num (-1)) (jmin (JVal.num 1) (jmul deviation (JVal.num 2)))

/-- `ShortTermStrategy.calculateVolumeAnomaly` under JavaScript-number
semantics. -/
def calculateVolumeAnomalyJS (config : ShortTermStrategyConfig)
    (klines : List KLine) (currentVolume24h : ℚ) : JVal :=
  if klines.length < 5 then JVal.num 0 else
  let volumes := ((klines.drop (klines.length - 10)).map
    (fun k => k.volume.getD 0)).filter fun v => decide (0 < v)
  if volumes.length = 0 then JVal.num 0 else
  let avgVolume := jdiv (jsum (volumes.map JVal.num)) (JVal.num volumes.length)
  if avgVolume = JVal.num 0 then JVal.num 0 else
  let volumeRatio := jdiv (JVal.num currentVolume24h)
    (jmul (jmul avgVolume (JVal.num 24)) (JVal.num 4))
  jmin (JVal.num 1) (jdiv volumeRatio (JVal.num config.volumeAnomalyThreshold))

/-- `ShortTermStrategy.calculateTimeFactor` under JavaScript-number
semantics (a zero close at the start of the last-3 window makes the
trend NaN or ±Infinity). -/
def calculateTimeFactorJS (config : ShortTermStrategyConfig)
    (klines : List KLine) (marketStartTime : ℚ) (now : ℚ) : JVal :=
  if klines.length < 3 then JVal.num 0 else
  let timeSinceStart := (now - marketStartTime) / (1000 * 60)
  if timeSinceStart < 5 then
    let recentKlines := klines.drop (klines.length - 3)
    let prices := recentKlines.map (·.close)
    let trend := jdiv
      (jsub (JVal.num (prices.getD (prices.length - 1) 0)) (JVal.num (prices.getD 0 0)))
      (JVal.num (prices.getD 0 0))
    jmul (jmax (JVal.num (-1)) (jmin (JVal.num 1) (jmul trend (JVal.num 100))))
      (JVal.num config.earlyMarketWeight)
  else JVal.num 0

/-- The factor record of `StrategySignal` under JavaScript-number
semantics. -/
structure FactorsJS where
  momentum : JVal
  volatility : JVal
  pricingDeviation : JVal
  volumeAnomaly : JVal
  timeFactor : JVal
deriving DecidableEq, Repr

/-- `StrategySignal` under JavaScript-number semantics. -/
structure StrategySignalJS where
  direction : Outcome
  confidence : JVal
  signalStrength : JVal
  factors : FactorsJS
deriving DecidableEq, Repr

/-- `TradeSignal` under JavaScript-number semantics. -/
structure TradeSignalJS where
  marketId : String
  outcome : Outcome
  probability : ℚ
  confidence : JVal
  signalStrength : JVal
  recommendedSize : JVal
deriving DecidableEq, Repr

/-- `ShortTermStrategy.calculateFactorAgreement` under JavaScript-number
semantics: a NaN factor fails every magnitude test and contributes
nothing. -/
def calculateFactorAgreementJS (factors : FactorsJS)
    (direction : Outcome) : ℚ :=
  let expectedSign : Int := if direction = Outcome.YES then 1 else -1
  let m : ℚ × ℕ :=
    if jlt (JVal.num 0.001) (jabs factors.momentum) then
      (if (if jlt (JVal.num 0) factors.momentum then (1 : Int) else -1) = expectedSign
        then 0.3 else 0, 1)
    else (0, 0)
  let pr : ℚ × ℕ :=
    if jlt (JVal.num 0.05) (jabs factors.pricingDeviation) then
      (if (if jlt factors.pricingDeviation (JVal.num 0) then (1 : Int) else -1) = expectedSign
        then 0.3 else 0, 1)
    else (0, 0)
  let t : ℚ × ℕ :=
    if jlt (JVal.num 0.1) (jabs factors.timeFactor) then
      (if (if jlt (JVal.num 0) factors.timeFactor then (1 : Int) else -1) = expectedSign
        then 0.2 else 0, 1)
    else (0, 0)
  let agreement := m.1 + pr.1 + t.1
  let count := m.2 + pr.2 + t.2
  if 0 < count then agreement / count else 0

/-- The unconditional part of `ShortTermStrategy.combineFactors` under
JavaScript-number semantics: a NaN time factor flows unfiltered into the
combined score, making strength and confidence NaN. -/
def combineFactorsCoreJS (config : ShortTermStrategyConfig)
    (momentum volatility pricingDeviation volumeAnomaly timeFactor : JVal) :
    StrategySignalJS :=
  let factors : FactorsJS :=
    ⟨momentum, volatility, pricingDeviation, volumeAnomaly, timeFactor⟩
  let momentumScore :=
    if jlt (JVal.num config.momentumThreshold) (jabs momentum) then momentum
    else JVal.num 0
  let volatilityBoost : JVal :=
    if jlt (JVal.num 0.5) volatility then JVal.num 1.2 else JVal.num 1.0
  let pricingScore :=
    if jlt (JVal.num config.pricingDeviationThreshold) (jabs pricingDeviation) then
      jneg pricingDeviation
    else JVal.num 0
  let volumeBoost : JVal :=
    if jlt (JVal.num 0.5) volumeAnomaly then JVal.num 1.1 else JVal.num 1.0
  let timeScore := timeFactor
  let combinedScore :=
    jadd (jadd (jadd (jmul (jmul momentumScore (JVal.num 0.40)) volatilityBoost)
      (jmul pricingScore (JVal.num 0.25)))
      (jmul timeScore (JVal.num 0.10)))
      (jmul (jsub (jmul momentumScore volumeBoost) momentumScore) (JVal.num 0.10))
  let direction : Outcome :=
    if jlt (JVal.num 0) combinedScore then Outcome.YES else Outcome.NO
  let signalStrength := jmin (JVal.num 1) (jabs combinedScore)
  let confidence0 := signalStrength
  let factorAgreement := calculateFactorAgreementJS factors direction
  let confidence1 := jadd confidence0 (jmul (JVal.num factorAgreement) (JVal.num 0.2))
  let confidence2 :=
    if jlt (JVal.num 0.6) volatility && jlt (JVal.num 0.002) (jabs momentum) then
      jadd confidence1 (JVal.num 0.1)
    else confidence1
  let confidence3 :=
    if jlt (JVal.num 0.1) (jabs pricingDeviation) then jadd confidence2 (JVal.num 0.1)
    else confidence2
  let confidence := jmin (JVal.num 1) confidence3
  ⟨direction, confidence, signalStrength, factors⟩

/-- `ShortTermStrategy.combineFactors` under JavaScript-number semantics:
the gate is the JavaScript `<`, which is false on a NaN strength. -/
def combineFactorsJS (config : ShortTermStrategyConfig)
    (momentum volatility pricingDeviation volumeAnomaly timeFactor : JVal)
    (yesPrice noPrice : MarketPrice) : Option StrategySignalJS :=
  let s := combineFactorsCoreJS config momentum volatility pricingDeviation
    volumeAnomaly timeFactor
  if jlt s.signalStrength (JVal.num config.minSignalStrength) then none else some s

/-- `ShortTermStrategy.calculatePositionSize` under JavaScript-number
semantics. -/
def calculatePositionSizeJS (probability liquidity : ℚ)
    (confidence signalStrength : JVal) : JVal :=
  let baseSize : JVal := JVal.num 100
  let confidenceMultiplier := confidence
  let strengthMultiplier := signalStrength
  let probabilityMultiplier : JVal :=
    if (0.7 : ℚ) < probability then JVal.num 0.8 else JVal.num 1.0
  let size := jmul (jmul (jmul baseSize confidenceMultiplier) strengthMultiplier)
    probabilityMultiplier
  let maxSize := jmin size (JVal.num (liquidity * 0.05))
  jmax (JVal.num 50) (jmin maxSize (JVal.num 500))

/-- The pricing-deviation input of `analyzeMarket` under
JavaScript-number semantics. -/
def pricingDeviationOfJS (chainlinkPrice : Option ℚ) (klines : List KLine)
    (yesPrice : ℚ) : JVal :=
  match chainlinkPrice with
  | some cp => calculatePricingDeviationJS cp klines yesPrice
  | none => JVal.num 0

/-- The time-factor input of `analyzeMarket` under JavaScript-number
semantics. -/
def timeFactorOfJS (config : ShortTermStrategyConfig) (klines : List KLine)
    (marketStartTime : Option ℚ) (now : ℚ) : JVal :=
  match marketStartTime with
  | some t => if t = 0 then JVal.num 0 else calculateTimeFactorJS config klines t now
  | none => JVal.num 0

/-- `ShortTermStrategy.analyzeMarket` under JavaScript-number semantics:
the bar-derived quantities may be NaN or infinite, and both threshold
gates are the JavaScript `<`. -/
def analyzeMarketJS (config : ShortTermStrategyConfig) (marketId : String)
    (prices : List MarketPrice) (chainlinkPrice : Option ℚ)
    (klines : List KLine) (marketStartTime : Option ℚ) (now : ℚ) :
    Option TradeSignalJS :=
  match prices.find? (fun p => p.outcome == Outcome.YES),
      prices.find? (fun p => p.outcome == Outcome.NO) with
  | some yesPrice, some noPrice =>
    if klines.length < 10 then none else
    let momentum := calculateMomentumJS config klines
    let volatility := calculateVolatilityJS config klines
    let pricingDeviation := pricingDeviationOfJS chainlinkPrice klines yesPrice.price
    let volumeAnomaly := calculateVolumeAnomalyJS config klines yesPrice.volume24h
    let timeFactor := timeFactorOfJS config klines marketStartTime now
    match combineFactorsJS config momentum volatility pricingDeviation
        volumeAnomaly timeFactor yesPrice noPrice with
    | none => none
    | some signal =>
      if jlt signal.confidence (JVal.num config.minConfidence) then none
      else if jlt signal.signalStrength (JVal.num config.minSignalStrength) then none
      else some
        { marketId := marketId
          outcome := signal.direction
          probability :=
            if signal.direction = Outcome.YES then yesPrice.price else noPrice.price
          confidence := signal.confidence
          signalStrength := signal.signalStrength
          recommendedSize := calculatePositionSizeJS
            (if signal.direction = Outcome.YES then yesPrice.price else noPrice.price)
            (if signal.direction = Outcome.YES then yesPrice.liquidity else noPrice.liquidity)
            signal.confidence signal.signalStrength }
  | _, _ => none

/-- Ten candles whose closes are 100 for seven bars and then 0, 50, 0:
the last-3-bar trend is (0-0)/0 = NaN under JavaScript semantics. -/
def c4Klines : List KLine :=
  [barAt 100, barAt 100, barAt 100, barAt 100, barAt 100, barAt 100,
    barAt 100, barAt 0, barAt 50, barAt 0]

/-- C5: once the accumulated daily PnL is at or below the negated daily
loss cap, `canOpenPosition` rejects every signal, whatever the current
positions are. -/
theorem c5_daily_loss_blocks_entry (config : TradingConfig) (dailyPnL : ℚ)
    (signal : TradeSignal) (currentPositions : List Position)
    (h : dailyPnL ≤ -config.maxDailyLossUsd) :
    canOpenPosition config dailyPnL signal currentPositions = false := by
  unfold canOpenPosition
  simp [h]

/-- Witness for C5 at a concrete input. -/
theorem c5_daily_loss_blocks_entry_witness :
    (-60 : ℚ) ≤ -sampleTradingConfig.maxDailyLossUsd ∧
    canOpenPosition sampleTradingConfig (-60) sampleSignal [] = false :=
  ⟨by norm_num [sampleTradingConfig],
   c5_daily_loss_blocks_entry sampleTradingConfig (-60) sampleSignal []
     (by norm_num [sampleTradingConfig])⟩

/-- C6: if some current position already carries the signal's market id,
`canOpenPosition` returns false, whatever the other fields of the signal
are. -/
theorem c6_duplicate_position_blocks_entry (config : TradingConfig)
    (dailyPnL : ℚ) (signal : TradeSignal) (currentPositions : List Position)
    (p : Position) (hmem : p ∈ currentPositions)
    (hid : p.marketId = signal.marketId) :
    canOpenPosition config dailyPnL signal currentPositions = false := by
  unfold canOpenPosition
  have hfind : (currentPositions.find? fun q => q.marketId == signal.marketId).isSome := by
    rw [List.find?_isSome]
    exact ⟨p, hmem, by simp [hid]⟩
  split
  · rfl
  · split
    · rfl
    · simp [hfind]

/-- Witness for C6 at a concrete input. -/
theorem c6_duplicate_position_blocks_entry_witness :
    samplePosition ∈ [samplePosition] ∧
    samplePosition.marketId = sampleSignal.marketId ∧
    canOpenPosition sampleTradingConfig 0 sampleSignal [samplePosition] = false :=
  ⟨by simp, by decide,
   c6_duplicate_position_blocks_entry sampleTradingConfig 0 sampleSignal
     [samplePosition] samplePosition (by simp) (by decide)⟩

/-- C7: `shouldClosePosition` holds exactly when the stop loss is hit or
the realized daily loss together with the position's pnl would breach the
daily cap; in particular a position sitting one point below the stop-loss
threshold is closed. -/
theorem c7_should_close_iff (config : TradingConfig) (dailyPnL : ℚ)
    (position : Position) :
    (shouldClosePosition config dailyPnL position = true ↔
      (position.pnlPercent ≤ -config.stopLossPercent ∨
        dailyPnL + position.pnl ≤ -config.maxDailyLossUsd)) ∧
    (position.pnlPercent = -config.stopLossPercent - 1 →
      shouldClosePosition config dailyPnL position = true) := by
  constructor
  · unfold shouldClosePosition
    split
    · simp_all
    · split
      · simp_all
      · simp_all
  · intro hpp
    unfold shouldClosePosition
    have : position.pnlPercent ≤ -config.stopLossPercent := by
      rw [hpp]; linarith
    simp [this]

/-- Witness for C7 at a concrete input. -/
theorem c7_should_close_iff_witness :
    (shouldClosePosition sampleTradingConfig 0
        { samplePosition with pnlPercent := -16, pnl := -16 } = true ↔
      ((-16 : ℚ) ≤ -sampleTradingConfig.stopLossPercent ∨
        (0 : ℚ) + (-16) ≤ -sampleTradingConfig.maxDailyLossUsd)) ∧
    ({ samplePosition with pnlPercent := -16, pnl := -16 }.pnlPercent =
        -sampleTradingConfig.stopLossPercent - 1 →
      shouldClosePosition sampleTradingConfig 0
        { samplePosition with pnlPercent := -16, pnl := -16 } = true) :=
  c7_should_close_iff sampleTradingConfig 0
    { samplePosition with pnlPercent := -16, pnl := -16 }

/-- C1: at a 5-bar history whose trend-implied probability exceeds the
clamp range (trend 5%, estimate 1.0, clamp 0.7) and quote probability
0.9, the code's pricing deviation is -0.2 while the specified formula
(which subtracts the clamped estimate) gives 0.4: the source computes
`estimatedActualProbabilityClamped` but subtracts the unclamped value. -/
theorem c1_pricing_deviation_uses_unclamped_estimate :
    calculatePricingDeviation 100000 c1Klines 0.9 = -(1/5) ∧
    pricingDeviationSpec c1Klines 0.9 = 2/5 := by
  constructor
  · norm_num [calculatePricingDeviation, c1Klines, barAt]
  · norm_num [pricingDeviationSpec, c1Klines, barAt]

/-- C2: on ten completely flat candles the volatility factor is NaN under
JavaScript-number semantics (the ATR-to-price ratio is 0 and the source
divides it by itself times the multiplier, so it computes 0/0, and
`Math.min` propagates the NaN), not a real number in [0, 1]. -/
theorem c2_volatility_nan_on_flat_bars :
    calculateVolatilityJS defaultStrategyConfig flatBars = JVal.nan := by
  norm_num [calculateVolatilityJS, flatBars, flatBar, trueRangeJS, jadd, jsub,
    jmul, jdiv, jmin, jmax, jabs, jsum, List.replicate, defaultStrategyConfig]

/-- C3 counterexample: with liquidity 100, full confidence and strength
and probability 0.5, the position size is 50, which exceeds
5% of the liquidity (= 5): the [50, 500] clamp overrides the liquidity
cap. -/
theorem c3_floor_overrides_liquidity_cap :
    calculatePositionSize 0.5 100 1 1 = 50 ∧
    ¬ calculatePositionSize 0.5 100 1 1 ≤ 100 * 0.05 := by
  norm_num [calculatePositionSize]

/-- C3 (amended): the position size always lies in [50, 500], and it is
bounded by 5% of the liquidity whenever that cap is at least the floor
of 50. -/
theorem c3_position_size_bounds :
    (∀ probability liquidity confidence signalStrength : ℚ,
      50 ≤ calculatePositionSize probability liquidity confidence signalStrength ∧
      calculatePositionSize probability liquidity confidence signalStrength ≤ 500) ∧
    (∀ probability liquidity confidence signalStrength : ℚ,
      50 ≤ liquidity * 0.05 →
      calculatePositionSize probability liquidity confidence signalStrength ≤
        liquidity * 0.05) := by
  constructor
  · intro probability liquidity confidence signalStrength
    simp only [calculatePositionSize]
    exact ⟨le_max_left _ _,
      max_le (by norm_num) (min_le_right _ _)⟩
  · intro probability liquidity confidence signalStrength h
    simp only [calculatePositionSize]
    exact max_le h (le_trans (min_le_left _ _) (min_le_right _ _))

/-- Witness for C3 at a concrete input with a large liquidity. -/
theorem c3_position_size_bounds_witness :
    (50 : ℚ) ≤ 100000 * 0.05 ∧
    calculatePositionSize 0.5 100000 1 1 ≤ 100000 * 0.05 :=
  ⟨by norm_num,
    c3_position_size_bounds.2 0.5 100000 1 1 (by norm_num)⟩

/-- C4 counterexample: on ten bars whose last three closes are 0, 50, 0
and with a market started one minute ago, the last-3 trend is (0-0)/0 =
NaN, the NaN time factor flows unfiltered into the combined score, every
gate comparison against NaN is false, and `analyzeMarket` emits a signal
whose strength is NaN — for which "strength is at least
minSignalStrength" is false. -/
theorem c4_nan_time_factor_bypasses_gates :
    analyzeMarketJS defaultStrategyConfig "mkt-1" [yesQuote, noQuote] none
      c4Klines (some 60000) 120000 =
      some { marketId := "mkt-1", outcome := Outcome.NO, probability := 1/2,
             confidence := JVal.nan, signalStrength := JVal.nan,
             recommendedSize := JVal.nan } ∧
    jle (JVal.num defaultStrategyConfig.minSignalStrength) JVal.nan = false := by
  constructor
  · have hm : calculateMomentumJS defaultStrategyConfig c4Klines = JVal.nan := by
      norm_num [calculateMomentumJS, c4Klines, barAt, defaultStrategyConfig,
        jadd, jsub, jmul, jdiv, jmin, jmax, jlt]
    have hv : calculateVolatilityJS defaultStrategyConfig c4Klines =
        JVal.num (2/3) := by
      norm_num [calculateVolatilityJS, trueRangeJS, c4Klines, barAt,
        defaultStrategyConfig, jadd, jsub, jmul, jdiv, jmin, jmax, jabs, jsum]
    have hva : calculateVolumeAnomalyJS defaultStrategyConfig c4Klines
        yesQuote.volume24h = JVal.num 1 := by
      norm_num [calculateVolumeAnomalyJS, c4Klines, barAt, yesQuote,
        defaultStrategyConfig, jadd, jmul, jdiv, jmin, jsum]
    have ht : timeFactorOfJS defaultStrategyConfig c4Klines (some 60000)
        120000 = JVal.nan := by
      norm_num [timeFactorOfJS, calculateTimeFactorJS, c4Klines, barAt,
        defaultStrategyConfig, jsub, jmul, jdiv, jmin, jmax]
    have hcf : combineFactorsJS defaultStrategyConfig JVal.nan (JVal.num (2/3))
        (JVal.num 0) (JVal.num 1) JVal.nan yesQuote noQuote =
        some ⟨Outcome.NO, JVal.nan, JVal.nan,
          ⟨JVal.nan, JVal.num (2/3), JVal.num 0, JVal.num 1, JVal.nan⟩⟩ := by
      norm_num [combineFactorsJS, combineFactorsCoreJS,
        calculateFactorAgreementJS, defaultStrategyConfig, jadd, jsub, jmul,
        jneg, jmin, jmax, jabs, jlt]
    unfold analyzeMarketJS
    rw [show ([yesQuote, noQuote].find? fun p => p.outcome == Outcome.YES) =
      some yesQuote from rfl]
    rw [show ([yesQuote, noQuote].find? fun p => p.outcome == Outcome.NO) =
      some noQuote from rfl]
    dsimp only
    rw [if_neg (by norm_num [c4Klines, barAt])]
    rw [show pricingDeviationOfJS none c4Klines yesQuote.price = JVal.num 0
      from rfl]
    rw [hm, hv, hva, ht, hcf]
    dsimp only
    rw [if_neg (by norm_num [jlt]), if_neg (by norm_num [jlt])]
    norm_num [calculatePositionSizeJS, yesQuote, noQuote, jmul, jmin, jmax]
  · rfl

/-- C4 (amended): when both quotes are present and at least 10 bars of
history are available, `analyzeMarket` emits a signal exactly when
neither the combined signal's strength nor its confidence compares below
the configured minimum under the JavaScript `<` — which coincides with
"strength ≥ minSignalStrength and confidence ≥ minConfidence" for real
(non-NaN) values, but also lets a NaN strength or confidence through the
gates. -/
theorem c4_signal_gating (config : ShortTermStrategyConfig)
    (marketId : String) (prices : List MarketPrice)
    (chainlinkPrice : Option ℚ) (klines : List KLine)
    (marketStartTime : Option ℚ) (now : ℚ) (yes no : MarketPrice)
    (s : StrategySignalJS)
    (hy : prices.find? (fun p => p.outcome == Outcome.YES) = some yes)
    (hn : prices.find? (fun p => p.outcome == Outcome.NO) = some no)
    (hk : 10 ≤ klines.length)
    (hs : s = combineFactorsCoreJS config (calculateMomentumJS config klines)
      (calculateVolatilityJS config klines)
      (pricingDeviationOfJS chainlinkPrice klines yes.price)
      (calculateVolumeAnomalyJS config klines yes.volume24h)
      (timeFactorOfJS config klines marketStartTime now)) :
    (analyzeMarketJS config marketId prices chainlinkPrice klines
      marketStartTime now).isSome ↔
      (jlt s.signalStrength (JVal.num config.minSignalStrength) = false ∧
        jlt s.confidence (JVal.num config.minConfidence) = false) := by
  unfold analyzeMarketJS combineFactorsJS
  rw [hy, hn]
  dsimp only
  rw [if_neg (by omega), ← hs]
  by_cases h1 : jlt s.signalStrength (JVal.num config.minSignalStrength) = true
  · rw [if_pos h1]
    simp [h1]
  · rw [if_neg h1]
    dsimp only
    rw [Bool.not_eq_true] at h1
    by_cases h2 : jlt s.confidence (JVal.num config.minConfidence) = true
    · rw [if_pos h2]
      simp [h2]
    · rw [Bool.not_eq_true] at h2
      rw [if_neg (by simp [h2]), if_neg (by simp [h1])]
      simp [h1, h2]

/-- Witness for C4 at a concrete input (flat history, no reference
price). -/
theorem c4_signal_gating_witness :
    (analyzeMarketJS defaultStrategyConfig "mkt-1" [yesQuote, noQuote] none
      flatBars none 0).isSome ↔
      (jlt (combineFactorsCoreJS defaultStrategyConfig
          (calculateMomentumJS defaultStrategyConfig flatBars)
          (calculateVolatilityJS defaultStrategyConfig flatBars)
          (pricingDeviationOfJS none flatBars yesQuote.price)
          (calculateVolumeAnomalyJS defaultStrategyConfig flatBars yesQuote.volume24h)
          (timeFactorOfJS defaultStrategyConfig flatBars none 0)).signalStrength
          (JVal.num defaultStrategyConfig.minSignalStrength) = false ∧
        jlt (combineFactorsCoreJS defaultStrategyConfig
          (calculateMomentumJS defaultStrategyConfig flatBars)
          (calculateVolatilityJS defaultStrategyConfig flatBars)
          (pricingDeviationOfJS none flatBars yesQuote.price)
          (calculateVolumeAnomalyJS defaultStrategyConfig flatBars yesQuote.volume24h)
          (timeFactorOfJS defaultStrategyConfig flatBars none 0)).confidence
          (JVal.num defaultStrategyConfig.minConfidence) = false) :=
  c4_signal_gating defaultStrategyConfig "mkt-1" [yesQuote, noQuote] none
    flatBars none 0 yesQuote noQuote _ rfl rfl (by decide) rfl

/-- C8 counterexample: with the same bar history and the same market
start time, the time factor evaluated one minute after the start differs
from the one evaluated ten minutes after the start: `calculateTimeFactor`
reads the wall clock (`Date.now()` in the source). -/
theorem c8_time_factor_reads_wall_clock :
    calculateTimeFactor defaultStrategyConfig c8Klines 0 60000 ≠
    calculateTimeFactor defaultStrategyConfig c8Klines 0 600000 := by
  norm_num [calculateTimeFactor, c8Klines, barAt, defaultStrategyConfig]

/-- C8 (amended): momentum, volatility, pricing deviation and volume
anomaly are deterministic functions of their declared inputs, and the
time factor is deterministic once the wall-clock reading is included
among its inputs. -/
theorem c8_factors_deterministic (config : ShortTermStrategyConfig)
    (klines : List KLine)
    (referencePrice quoteProbability volume24h startTime now : ℚ) :
    calculateMomentum config klines = calculateMomentum config klines ∧
    calculateVolatility config klines = calculateVolatility config klines ∧
    calculatePricingDeviation referencePrice klines quoteProbability =
      calculatePricingDeviation referencePrice klines quoteProbability ∧
    calculateVolumeAnomaly config klines volume24h =
      calculateVolumeAnomaly config klines volume24h ∧
    calculateTimeFactor config klines startTime now =
      calculateTimeFactor config klines startTime now :=
  ⟨rfl, rfl, rfl, rfl, rfl⟩

/-- C9: when the Chainlink price is unavailable, `analyzeMarket` behaves
exactly as with a reference price whose pricing deviation is 0 (analysis
proceeds on bar data alone), and with permissive-enough configured
minimums a signal can still be emitted from the remaining factors. -/
theorem c9_missing_reference_price_degrades :
    (∀ (config : ShortTermStrategyConfig) (marketId : String)
        (prices : List MarketPrice) (klines : List KLine)
        (marketStartTime : Option ℚ) (now cp : ℚ) (yes : MarketPrice),
      prices.find? (fun p => p.outcome == Outcome.YES) = some yes →
      calculatePricingDeviation cp klines yes.price = 0 →
      analyzeMarket config marketId prices (some cp) klines marketStartTime now =
        analyzeMarket config marketId prices none klines marketStartTime now) ∧
    analyzeMarket c9Config "mkt-1" [yesQuote, noQuote] none c9Klines none 0 ≠
      none := by
  constructor
  · intro config marketId prices klines marketStartTime now cp yes hy hdev
    unfold analyzeMarket
    rw [hy]
    cases hn : prices.find? (fun p => p.outcome == Outcome.NO) with
    | none => rfl
    | some no =>
      dsimp only
      rw [show pricingDeviationOf (some cp) klines yes.price =
        pricingDeviationOf none klines yes.price from by
          simp [pricingDeviationOf, hdev]]
  · have hm : calculateMomentum c9Config c9Klines = 1 := by
      norm_num [calculateMomentum, c9Config, c9Klines, barAt, defaultStrategyConfig]
    have hv : calculateVolatility c9Config c9Klines = 2/3 := by
      norm_num [calculateVolatility, averageTrueRange, averageClose,
        recentTrueRanges, trueRange, c9Config, c9Klines, barAt,
        defaultStrategyConfig]
    have hva : calculateVolumeAnomaly c9Config c9Klines yesQuote.volume24h = 1 := by
      norm_num [calculateVolumeAnomaly, c9Config, c9Klines, barAt, yesQuote,
        defaultStrategyConfig]
    have hcf : combineFactors c9Config 1 (2/3) 0 1 0 yesQuote noQuote =
        some ⟨Outcome.YES, 13/20, 49/100, ⟨1, 2/3, 0, 1, 0⟩⟩ := by
      norm_num [combineFactors, combineFactorsCore, calculateFactorAgreement,
        c9Config, defaultStrategyConfig, min_def, abs_of_nonneg]
    unfold analyzeMarket
    rw [show ([yesQuote, noQuote].find? fun p => p.outcome == Outcome.YES) =
      some yesQuote from rfl]
    rw [show ([yesQuote, noQuote].find? fun p => p.outcome == Outcome.NO) =
      some noQuote from rfl]
    dsimp only
    rw [if_neg (by norm_num [c9Klines, barAt])]
    rw [show pricingDeviationOf none c9Klines yesQuote.price = 0 from rfl]
    rw [show timeFactorOf c9Config c9Klines none 0 = 0 from rfl]
    rw [hm, hv, hva, hcf]
    dsimp only
    rw [if_neg (by norm_num [c9Config, defaultStrategyConfig])]
    rw [if_neg (by norm_num [c9Config, defaultStrategyConfig])]
    simp

/-- Witness for C9 at a concrete input: a reference price whose computed
deviation is 0 leaves the analysis unchanged relative to an absent one. -/
theorem c9_missing_reference_price_degrades_witness :
    analyzeMarket defaultStrategyConfig "mkt-1" [yesQuote, noQuote]
      (some 100) flatBars none 0 =
    analyzeMarket defaultStrategyConfig "mkt-1" [yesQuote, noQuote]
      none flatBars none 0 :=
  c9_missing_reference_price_degrades.1 defaultStrategyConfig "mkt-1"
    [yesQuote, noQuote] flatBars none 0 100 yesQuote rfl
    (by norm_num [calculatePricingDeviation, flatBars, flatBar, yesQuote,
      List.replicate])

/-- C10: on every bar history with at least 10 bars, nonzero average true
range and nonzero average close, the volatility factor collapses to the
constant min(1, 1/highVolatilityMultiplier) = 2/3: the ratio is divided
by itself times the multiplier, so the bars' actual dispersion cancels. -/
theorem c10_volatility_is_constant (k1 k2 : List KLine)
    (hl1 : 10 ≤ k1.length) (hl2 : 10 ≤ k2.length)
    (ha1 : averageTrueRange defaultStrategyConfig k1 ≠ 0)
    (hc1 : averageClose defaultStrategyConfig k1 ≠ 0)
    (ha2 : averageTrueRange defaultStrategyConfig k2 ≠ 0)
    (hc2 : averageClose defaultStrategyConfig k2 ≠ 0) :
    calculateVolatility defaultStrategyConfig k1 =
      calculateVolatility defaultStrategyConfig k2 ∧
    calculateVolatility defaultStrategyConfig k1 =
      min 1 (1 / defaultStrategyConfig.highVolatilityMultiplier) := by
  have key : ∀ k : List KLine, 10 ≤ k.length →
      averageTrueRange defaultStrategyConfig k ≠ 0 →
      averageClose defaultStrategyConfig k ≠ 0 →
      calculateVolatility defaultStrategyConfig k =
        min 1 (1 / defaultStrategyConfig.highVolatilityMultiplier) := by
    intro k hk ha hc
    unfold calculateVolatility
    rw [if_neg (by simp only [defaultStrategyConfig]; omega)]
    dsimp only
    have hv : averageTrueRange defaultStrategyConfig k /
        averageClose defaultStrategyConfig k ≠ 0 := div_ne_zero ha hc
    rw [div_mul_cancel_left₀ hv]
    norm_num
  exact ⟨(key k1 hl1 ha1 hc1).trans (key k2 hl2 ha2 hc2).symm,
    key k1 hl1 ha1 hc1⟩

/-- Witness for C10 at two concrete, differently dispersed histories. -/
theorem c10_volatility_is_constant_witness :
    calculateVolatility defaultStrategyConfig c9Klines =
      calculateVolatility defaultStrategyConfig c10Klines ∧
    calculateVolatility defaultStrategyConfig c9Klines =
      min 1 (1 / defaultStrategyConfig.highVolatilityMultiplier) :=
  c10_volatility_is_constant c9Klines c10Klines (by decide) (by decide)
    (by norm_num [averageTrueRange, recentTrueRanges, trueRange, c9Klines,
      barAt, defaultStrategyConfig])
    (by norm_num [averageClose, c9Klines, barAt, defaultStrategyConfig])
    (by norm_num [averageTrueRange, recentTrueRanges, trueRange, c10Klines,
      barAt, defaultStrategyConfig])
    (by norm_num [averageClose, c10Klines, barAt, defaultStrategyConfig])
